import Mathlib

/-!
# CaptainCary backend — verification of the access-control / workflow core

Shallow embedding of the crew/request policy core of the CaptainCary
backend (Express + Mongoose).  Route handlers are modelled as pure
functions over an explicit database state (lists of records); the HTTP
framework, express-validator field validation, multer file upload, the
file store and the notification channel are external collaborators
(spec §1) and enter as explicit parameters or boolean outcomes.

Source files embedded:
* src/models/Crew.js, src/models/ClientRequest.js — data model
* src/routes/client.js — two revisions of the client-facing routes
  (separated in the source by a revision marker); definitions carry the
  suffix `R1` (first revision) / `R2` (second revision)
* src/routes/crew.js — public registration
* src/routes/admin.js — status/tag/assignment/request-response routes
-/

namespace CaptainCary

/-- One uploaded document (src/models/Crew.js documentSchema).
`restricted` is not a schema field: revision 2 of the client crew-detail
handler (src/routes/client.js:484-490) adds a `restricted: true` marker to
the CV object at read time; it defaults to `false` on stored documents. -/
structure Document where
  name : String
  url : String
  uploadedAt : Nat := 0
  restricted : Bool := false
  deriving Repr, DecidableEq

/-- The eight document slots of a crew record (src/models/Crew.js:41-50).
In the schema the seven slots other than `photo` are required; registration
enforces this before insertion, so stored records may be modelled with all
slots optional and the invariant established by the registration path. -/
structure CrewDocuments where
  cv : Option Document := none
  passport : Option Document := none
  cdc : Option Document := none
  stcw : Option Document := none
  coc : Option Document := none
  seamanBook : Option Document := none
  visa : Option Document := none
  photo : Option Document := none
  deriving Repr, DecidableEq

/-- Dynamic slot access `crew.documents[docType]`
(src/routes/client.js:150, 625). An unknown slot name reads as absent. -/
def CrewDocuments.get (d : CrewDocuments) : String → Option Document
  | "cv" => d.cv
  | "passport" => d.passport
  | "cdc" => d.cdc
  | "stcw" => d.stcw
  | "coc" => d.coc
  | "seamanBook" => d.seamanBook
  | "visa" => d.visa
  | "photo" => d.photo
  | _ => none

/-- Crew vetting status (src/models/Crew.js:53-57). -/
inductive CrewStatus
  | pending
  | approved
  | rejected
  | missing_docs
  deriving Repr, DecidableEq

/-- A crew record (src/models/Crew.js). `id` stands for the Mongo `_id`;
client ids in `clientShortlists` are likewise numbers standing for
ObjectIds. Date fields are Nat timestamps. -/
structure Crew where
  id : Nat
  fullName : String
  email : String
  phone : String
  rank : String
  nationality : String
  currentLocation : String
  status : CrewStatus := .pending
  priority : Bool := false
  tags : List String := []
  internalComments : Option String := none
  adminNotes : Option String := none
  approvedForClients : Bool := false
  clientShortlists : List Nat := []
  documents : CrewDocuments := {}
  submittedAt : Nat := 0
  deriving Repr, DecidableEq

/-- A client account (src/unnamed/part_006, clientSchema) — the fields the
embedded routes consult. -/
structure Client where
  id : Nat
  companyName : String
  email : String
  isActive : Bool := true
  deriving Repr, DecidableEq

/-- Client-request status (src/models/ClientRequest.js:28-32). -/
inductive RequestStatus
  | pending
  | approved
  | rejected
  | completed
  deriving Repr, DecidableEq

/-- A client request (src/models/ClientRequest.js). -/
structure ClientRequest where
  id : Nat
  client : Nat
  crew : Nat
  requestType : String
  message : Option String := none
  urgency : String := "normal"
  status : RequestStatus := .pending
  adminResponse : Option String := none
  requestedAt : Nat := 0
  respondedAt : Option Nat := none
  deriving Repr, DecidableEq

/-- `Crew.findById` over the modelled collection. -/
def findCrew (crews : List Crew) (i : Nat) : Option Crew :=
  crews.find? (fun c => c.id == i)

/-- `Client.findById`. -/
def findClient (clients : List Client) (i : Nat) : Option Client :=
  clients.find? (fun c => c.id == i)

/-- `ClientRequest.findById`. -/
def findRequest (requests : List ClientRequest) (i : Nat) : Option ClientRequest :=
  requests.find? (fun r => r.id == i)

/-! ## Field projection of crew reads

Mongoose `select('-a -b')` keeps every schema path except the listed
ones; `populate(ref, 'a b')` keeps exactly the listed paths of the
referenced record.  We model the serialized shape of a returned crew
record as the list of crew schema field names it carries. -/

/-- The top-level paths of crewSchema (src/models/Crew.js:9-70). -/
def crewSchemaFields : List String :=
  ["fullName", "email", "phone", "rank", "nationality", "currentLocation",
   "dateOfBirth", "availabilityDate", "seaTimeSummary", "preferredVesselType",
   "additionalNotes", "documents", "status", "priority", "tags",
   "internalComments", "adminNotes", "approvedForClients", "clientShortlists",
   "submittedAt", "lastUpdated"]

/-- `select` with an exclusion list: every schema field not excluded.
Excluding a name that is not a schema path (the selects below list
`address`, which crewSchema does not have) is a no-op, as in Mongoose. -/
def selectExcluding (excluded : List String) : List String :=
  crewSchemaFields.filter (fun f => !excluded.contains f)

/-- Exclusions of the client crew-list read, identical in both revisions
(src/routes/client.js:71 and :437). -/
def clientCrewListExcluded : List String :=
  ["documents", "internalComments", "adminNotes", "tags", "priority",
   "email", "phone", "address"]

/-- Fields returned per record by `GET /crew` for clients. -/
def clientCrewListFields : List String :=
  selectExcluding clientCrewListExcluded

/-- Exclusions of the client crew-detail read, identical in both revisions
(src/routes/client.js:97 and :465). Note: `documents` is kept. -/
def clientCrewDetailExcluded : List String :=
  ["internalComments", "adminNotes", "email", "phone", "address",
   "tags", "priority"]

/-- Fields returned by `GET /crew/:id` for clients. -/
def clientCrewDetailFields : List String :=
  selectExcluding clientCrewDetailExcluded

/-- Exclusions of the client shortlisted-crew read, identical in both
revisions (src/routes/client.js:229 and :762): `email` and `phone` are
NOT excluded here. -/
def clientShortlistedExcluded : List String :=
  ["documents", "internalComments", "adminNotes", "tags", "priority"]

/-- Fields returned per record by `GET /shortlisted` for clients. -/
def clientShortlistedFields : List String :=
  selectExcluding clientShortlistedExcluded

/-- Crew fields delivered by the `populate('crew', ...)` of the client
request-history read (src/routes/client.js:303 and :862). -/
def clientRequestHistoryCrewFields : List String :=
  ["fullName", "rank", "nationality"]

/-- Crew fields delivered by the `populate('crew', ...)` of the client
request-detail read, revision 2 only (src/routes/client.js:898):
includes `email` and `phone` of the crew record. -/
def clientRequestDetailCrewFields : List String :=
  ["fullName", "rank", "nationality", "email", "phone"]

/-! ## Client crew reads (src/routes/client.js) -/

/-- Outcome of the client crew-detail read. The `ok` payload is the crew
record after the handler's in-place CV transformation; serialization
additionally drops the fields excluded by `clientCrewDetailFields`. -/
inductive DetailResult
  | notFound
  | forbidden
  | ok (crew : Crew)
  deriving Repr, DecidableEq

/-- `GET /crew/:id`, revision 1 (src/routes/client.js:94-116): 404 unless
`status == approved && approvedForClients`; the CV slot is nulled before
returning. -/
def clientCrewDetailR1 (crews : List Crew) (i : Nat) : DetailResult :=
  match findCrew crews i with
  | none => .notFound
  | some crew =>
    if crew.status != .approved || !crew.approvedForClients then .notFound
    else .ok { crew with documents := { crew.documents with cv := none } }

/-- `GET /crew/:id`, revision 2 (src/routes/client.js:460-500): same
visibility checks plus a shortlist-membership check (403 when the crew is
not assigned to the calling client); the CV is kept, marked restricted. -/
def clientCrewDetailR2 (crews : List Crew) (clientId : Nat) (i : Nat) :
    DetailResult :=
  match findCrew crews i with
  | none => .notFound
  | some crew =>
    if crew.status != .approved || !crew.approvedForClients then .notFound
    else if !crew.clientShortlists.contains clientId then .forbidden
    else .ok { crew with documents := { crew.documents with
        cv := crew.documents.cv.map (fun d => { d with restricted := true }) } }

/-- `GET /crew` query for clients, revision 1 (src/routes/client.js:51-54):
`status: approved, approvedForClients: true`. The optional search/rank
filters and pagination only narrow or slice this set and are omitted. -/
def clientCrewListR1 (crews : List Crew) : List Crew :=
  crews.filter (fun c => c.status == .approved && c.approvedForClients)

/-- `GET /crew` query for clients, revision 2 (src/routes/client.js:416-420):
additionally `clientShortlists: req.user._id` (assignment-gated variant). -/
def clientCrewListR2 (crews : List Crew) (clientId : Nat) : List Crew :=
  crews.filter (fun c =>
    c.status == .approved && c.approvedForClients
      && c.clientShortlists.contains clientId)

/-- `GET /shortlisted` query, identical in both revisions
(src/routes/client.js:226-229 and :759-762):
`clientShortlists: req.user._id, status: approved` — it does NOT require
`approvedForClients`. -/
def clientShortlisted (crews : List Crew) (clientId : Nat) : List Crew :=
  crews.filter (fun c =>
    c.clientShortlists.contains clientId && c.status == .approved)

/-! ## Client CV download and certificate view (src/routes/client.js)

The file store is an external collaborator (spec §1, §6); its
`existsSync` check enters as a boolean predicate on paths. -/

/-- Strip one leading slash from a stored document url
(src/routes/client.js:545-548). -/
def stripLeadingSlash (s : String) : String :=
  if s.startsWith "/" then s.drop 1 else s

/-- Path of the last url segment (`path.basename`). -/
def urlBasename (u : String) : String :=
  ((u.splitOn "/").getLast? ).getD u

/-- The fallback path tried when the primary path is missing
(src/routes/client.js:559): `uploads/` + basename of the stored url. -/
def altUploadPath (u : String) : String :=
  "uploads/" ++ urlBasename u

/-- Outcome of a client file-serving route. `file` carries the
`Content-Disposition` type used (the source always uses `inline`,
never `attachment`, on client routes) and the crew whose file is served. -/
inductive CvResult
  | forbidden
  | notFound (message : String)
  | file (disposition : String) (crew : Crew)
  deriving Repr, DecidableEq

/-- `GET /crew/:id/cv`, revision 1 (src/routes/client.js:118-132): the
handler unconditionally returns 403 without consulting the database. -/
def clientCvDownloadR1 (_crews : List Crew) (_i : Nat) : CvResult :=
  .forbidden

/-- `GET /crew/:id/cv`, revision 2 (src/routes/client.js:502-595): serves
the stored CV file inline (`Content-Disposition: inline`) when the crew is
approved, approved for clients, the CV slot is present and the file exists
(primary path, then the `uploads/` fallback); 404 otherwise. The
query-token branch re-resolves the principal and is part of the external
session collaborator. -/
def clientCvDownloadR2 (crews : List Crew) (i : Nat)
    (fsExists : String → Bool) : CvResult :=
  match findCrew crews i with
  | none => .notFound "Crew not found or not available"
  | some crew =>
    if crew.status != .approved || !crew.approvedForClients then
      .notFound "Crew not found or not available"
    else
      match crew.documents.cv with
      | none => .notFound "CV not available"
      | some cv =>
        if fsExists (stripLeadingSlash cv.url) then .file "inline" crew
        else if fsExists (altUploadPath cv.url) then .file "inline" crew
        else .notFound "CV file not found on server"

/-- Slot allow-list of the certificate view, revision 1
(src/routes/client.js:140): six slots, `photo` NOT included. -/
def allowedDocsR1 : List String :=
  ["passport", "cdc", "stcw", "coc", "seamanBook", "visa"]

/-- Slot allow-list of the certificate view, revision 2
(src/routes/client.js:615): the six slots plus `photo`. -/
def allowedDocsR2 : List String :=
  ["passport", "cdc", "stcw", "coc", "seamanBook", "visa", "photo"]

/-- Outcome of the client certificate-view route. Revision 1 returns
view-only metadata; revision 2 serves the file inline. -/
inductive CertResult
  | forbidden
  | notFound (message : String)
  | okView (documentType fileName : String)
  | file (disposition : String)
  deriving Repr, DecidableEq

/-- `GET /crew/:id/certificate/:docType`, revision 1
(src/routes/client.js:135-168). The allow-list check precedes the record
lookup, so a disallowed slot yields 403 even for a nonexistent crew id. -/
def clientCertificateR1 (crews : List Crew) (i : Nat) (docType : String) :
    CertResult :=
  if !allowedDocsR1.contains docType then .forbidden
  else
    match findCrew crews i with
    | none => .notFound "Crew not found or not available"
    | some crew =>
      if crew.status != .approved || !crew.approvedForClients then
        .notFound "Crew not found or not available"
      else
        match crew.documents.get docType with
        | none => .notFound "Document not found"
        | some d => .okView docType d.name

/-- `GET /crew/:id/certificate/:docType`, revision 2
(src/routes/client.js:598-701): same gate order with the seven-slot
allow-list; serves the file inline when it exists. -/
def clientCertificateR2 (crews : List Crew) (i : Nat) (docType : String)
    (fsExists : String → Bool) : CertResult :=
  if !allowedDocsR2.contains docType then .forbidden
  else
    match findCrew crews i with
    | none => .notFound "Crew not found or not available"
    | some crew =>
      if crew.status != .approved || !crew.approvedForClients then
        .notFound "Crew not found or not available"
      else
        match crew.documents.get docType with
        | none => .notFound "Document not found"
        | some d =>
          if fsExists (stripLeadingSlash d.url) then .file "inline"
          else if fsExists (altUploadPath d.url) then .file "inline"
          else .notFound "file not found on server"

/-! ## Public crew registration (src/routes/crew.js:65-202) -/

/-- The seven required document slots
(src/routes/crew.js:139): everything except `photo`. -/
def requiredDocs : List String :=
  ["cv", "passport", "cdc", "stcw", "coc", "seamanBook", "visa"]

/-- Display names of missing slots (src/routes/crew.js:143-154). -/
def docDisplayName : String → String
  | "cv" => "CV"
  | "passport" => "Passport"
  | "cdc" => "CDC"
  | "stcw" => "STCW Certificates"
  | "coc" => "COC"
  | "seamanBook" => "Seaman Book"
  | "visa" => "Visa"
  | d => d

/-- Registration input. Field validation (notEmpty, isEmail, date parsing)
is performed by express-validator, an external collaborator (spec §1);
its verdict enters as `fieldErrors`. `files` is the multer-parsed upload
map, keyed by field name (slot). -/
structure RegisterInput where
  fieldErrors : Bool
  email : String
  files : List (String × Document)
  deriving Repr, DecidableEq

/-- Outcome of `POST /register`. -/
inductive RegisterResult
  | invalidFields
  | duplicateEmail
  | missingDocuments (names : List String)
  | created (crewId : Nat)
  deriving Repr, DecidableEq

/-- `POST /register` (src/routes/crew.js:91-202). Check order as in the
source: express-validator errors (400), duplicate email (400), missing
required documents (400, listing display names), then creation (201). -/
def registerCrew (crews : List Crew) (input : RegisterInput) (newId : Nat) :
    RegisterResult :=
  if input.fieldErrors then .invalidFields
  else if (crews.find? (fun c => c.email == input.email)).isSome then
    .duplicateEmail
  else
    let missing := requiredDocs.filter (fun d => (input.files.lookup d).isNone)
    if missing.length > 0 then .missingDocuments (missing.map docDisplayName)
    else .created newId

/-! ## Client request submission (src/routes/client.js POST /requests) -/

/-- Submission input; express-validator verdict as `fieldErrors`. -/
structure SubmitInput where
  fieldErrors : Bool
  crewId : Nat
  requestType : String
  message : Option String := none
  urgency : String := "normal"
  deriving Repr, DecidableEq

/-- Outcome of `POST /requests`. -/
inductive SubmitResult
  | invalidFields
  | notFound (message : String)
  | forbidden (message : String)
  | created (requestId : Nat)
  deriving Repr, DecidableEq

/-- `POST /requests`, revision 1 (src/routes/client.js:238-297): requires
the crew to exist with `status == approved`, then unconditionally saves a
new pending request — there is no duplicate-pending lookup. The admin
notification is fire-and-forget (caught on line 281-284). -/
def submitRequestR1 (crews : List Crew) (requests : List ClientRequest)
    (clientId : Nat) (input : SubmitInput) (newId now : Nat) :
    SubmitResult × List ClientRequest :=
  if input.fieldErrors then (.invalidFields, requests)
  else
    match findCrew crews input.crewId with
    | none => (.notFound "Crew not found or not approved", requests)
    | some crew =>
      if crew.status != .approved then
        (.notFound "Crew not found or not approved", requests)
      else
        (.created newId, requests ++
          [{ id := newId, client := clientId, crew := input.crewId,
             requestType := input.requestType, message := input.message,
             urgency := input.urgency, status := .pending,
             requestedAt := now }])

/-- `POST /requests`, revision 2 (src/routes/client.js:771-835):
additionally requires `approvedForClients` (404) and shortlist membership
(403); still no duplicate-pending lookup before saving. -/
def submitRequestR2 (crews : List Crew) (requests : List ClientRequest)
    (clientId : Nat) (input : SubmitInput) (newId now : Nat) :
    SubmitResult × List ClientRequest :=
  if input.fieldErrors then (.invalidFields, requests)
  else
    match findCrew crews input.crewId with
    | none => (.notFound "Crew not found or not available for clients", requests)
    | some crew =>
      if crew.status != .approved || !crew.approvedForClients then
        (.notFound "Crew not found or not available for clients", requests)
      else if !crew.clientShortlists.contains clientId then
        (.forbidden "This crew member is not assigned to your company", requests)
      else
        (.created newId, requests ++
          [{ id := newId, client := clientId, crew := input.crewId,
             requestType := input.requestType, message := input.message,
             urgency := input.urgency, status := .pending,
             requestedAt := now }])

/-! ## Admin response to a request (src/routes/admin.js:1224-1265) -/

/-- The `isIn` allow-list of the respond route
(src/routes/admin.js:1226): `pending` is not an acceptable value. -/
def respondAllowedStatuses : List String :=
  ["approved", "rejected", "completed"]

/-- Parse a validated respond status string. The `pending` fallback is
unreachable behind the `respondAllowedStatuses` guard. -/
def parseRespondStatus : String → RequestStatus
  | "approved" => .approved
  | "rejected" => .rejected
  | "completed" => .completed
  | _ => .pending

/-- Outcome of `PATCH /requests/:id/respond`. -/
inductive RespondResult
  | invalidFields
  | notFound
  | ok (request : ClientRequest)
  deriving Repr, DecidableEq

/-- `PATCH /requests/:id/respond` (src/routes/admin.js:1225-1265):
`findByIdAndUpdate` sets `status`, `adminResponse` and `respondedAt`
unconditionally — the request's current status is never consulted. The
client notification is attempted afterwards inside try/catch
(lines 1253-1258): a notifier failure is logged and the handler still
responds with the updated request, so the outcome branches on
`notifyFails` are identical. -/
def respondToRequest (requests : List ClientRequest) (i : Nat)
    (statusStr : String) (adminResponse : Option String) (now : Nat)
    (notifyFails : Bool) : RespondResult × List ClientRequest :=
  if !respondAllowedStatuses.contains statusStr then
    (.invalidFields, requests)
  else
    match findRequest requests i with
    | none => (.notFound, requests)
    | some r =>
      let r' := { r with status := parseRespondStatus statusStr,
                         adminResponse := adminResponse,
                         respondedAt := some now }
      let requests' := requests.map (fun q => if q.id == i then r' else q)
      if notifyFails then (.ok r', requests') else (.ok r', requests')

/-! ## Admin crew status update and tag operations (src/routes/admin.js) -/

/-- Body of `PATCH /crew/:id/status` (src/routes/admin.js:426-432);
optional fields absent when not supplied. -/
structure StatusUpdateInput where
  status : CrewStatus
  priority : Option Bool := none
  tags : Option (List String) := none
  internalComments : Option String := none
  adminNotes : Option String := none
  approvedForClients : Option Bool := none
  deriving Repr, DecidableEq

/-- The update document built on src/routes/admin.js:447-452 applied to a
crew record: `status` always set; each optional field overwrites when
supplied; a supplied `tags` list REPLACES the stored tag list outright. -/
def applyStatusUpdate (crew : Crew) (u : StatusUpdateInput) : Crew :=
  { crew with
    status := u.status
    priority := u.priority.getD crew.priority
    tags := u.tags.getD crew.tags
    internalComments :=
      match u.internalComments with
      | some s => some s
      | none => crew.internalComments
    adminNotes :=
      match u.adminNotes with
      | some s => some s
      | none => crew.adminNotes
    approvedForClients := u.approvedForClients.getD crew.approvedForClients }

/-- `PATCH /crew/:id/status` (src/routes/admin.js:426-465): 404 when the
id is unknown, otherwise the update applied to the record. -/
def updateCrewStatus (crews : List Crew) (i : Nat) (u : StatusUpdateInput) :
    Option (List Crew) :=
  match findCrew crews i with
  | none => none
  | some _ =>
    some (crews.map (fun c => if c.id == i then applyStatusUpdate c u else c))

/-- Insertion step of a JavaScript `Set` built from a list: keep the
element on first sight, drop later duplicates. -/
def jsSetInsert (acc : List String) (x : String) : List String :=
  if x ∈ acc then acc else acc ++ [x]

/-- `[...new Set([...existingTags, ...tags])]`
(src/routes/admin.js:542-543): insertion-ordered, deduplicating union of
the existing and the new tags. -/
def jsSetMerge (existing new : List String) : List String :=
  (existing ++ new).foldl jsSetInsert []

/-- The per-crew mutation of `PATCH /crew/bulk-tags`
(src/routes/admin.js:541-545): tags become the merge of the stored and
the supplied tags. -/
def bulkTagsUpdateCrew (crew : Crew) (tags : List String) : Crew :=
  { crew with tags := jsSetMerge crew.tags tags }

/-- Per-id outcome of a bulk operation (src/routes/admin.js:533-552). -/
structure BulkItemResult where
  crewId : Nat
  success : Bool
  deriving Repr, DecidableEq

/-- `PATCH /crew/bulk-tags` (src/routes/admin.js:521-566): per-id
merge with per-id success/failure reporting; an unknown id fails that
item without aborting the batch. -/
def bulkAssignTags (crews : List Crew) (crewIds : List Nat)
    (tags : List String) : List Crew × List BulkItemResult :=
  crewIds.foldl
    (fun (st : List Crew × List BulkItemResult) cid =>
      match findCrew st.1 cid with
      | none => (st.1, st.2 ++ [{ crewId := cid, success := false }])
      | some _ =>
        (st.1.map (fun c => if c.id == cid then bulkTagsUpdateCrew c tags else c),
         st.2 ++ [{ crewId := cid, success := true }]))
    (crews, [])

/-! ## Client assignment (src/routes/admin.js) -/

/-- The shortlist insertion of the assignment routes
(src/routes/admin.js:1319-1323, also client.js:187-194): add the id only
when not already present. -/
def shortlistAdd (l : List Nat) (clientId : Nat) : List Nat :=
  if l.contains clientId then l else l ++ [clientId]

/-- The shortlist removal (src/routes/admin.js:1353-1355): filter the id
out, a no-op when absent. -/
def shortlistRemove (l : List Nat) (clientId : Nat) : List Nat :=
  l.filter (fun i => i != clientId)

/-- Outcome of `POST /crew/:crewId/assign-client`. -/
inductive AssignResult
  | crewNotFound
  | clientNotFound
  | ok
  deriving Repr, DecidableEq

/-- `POST /crew/:crewId/assign-client` (src/routes/admin.js:1297-1341):
validates both sides (404 naming the missing one), then idempotently adds
the client id to the crew's shortlist. -/
def assignClientToCrew (crews : List Crew) (clients : List Client)
    (crewId clientId : Nat) : AssignResult × List Crew :=
  match findCrew crews crewId with
  | none => (.crewNotFound, crews)
  | some crew =>
    match findClient clients clientId with
    | none => (.clientNotFound, crews)
    | some _ =>
      if crew.clientShortlists.contains clientId then (.ok, crews)
      else
        (.ok, crews.map (fun c =>
          if c.id == crewId then
            { c with clientShortlists := shortlistAdd c.clientShortlists clientId }
          else c))

/-- Outcome of `DELETE /crew/:crewId/remove-client/:clientId`. -/
inductive RemoveResult
  | crewNotFound
  | ok
  deriving Repr, DecidableEq

/-- `DELETE /crew/:crewId/remove-client/:clientId`
(src/routes/admin.js:1344-1363): 404 only for an unknown crew; removing a
non-member id filters nothing and still reports success. -/
def removeClientFromCrew (crews : List Crew) (crewId clientId : Nat) :
    RemoveResult × List Crew :=
  match findCrew crews crewId with
  | none => (.crewNotFound, crews)
  | some _ =>
    (.ok, crews.map (fun c =>
      if c.id == crewId then
        { c with clientShortlists := shortlistRemove c.clientShortlists clientId }
      else c))

/-! ## Concrete sample records for witnesses and counterexamples -/

/-- A stored document for slot `nm`. -/
def sampleDoc (nm : String) : Document :=
  { name := nm, url := "/uploads/" ++ nm ++ ".pdf" }

/-- All eight slots filled. -/
def fullDocs : CrewDocuments :=
  { cv := some (sampleDoc "cv"), passport := some (sampleDoc "passport"),
    cdc := some (sampleDoc "cdc"), stcw := some (sampleDoc "stcw"),
    coc := some (sampleDoc "coc"), seamanBook := some (sampleDoc "seamanBook"),
    visa := some (sampleDoc "visa"), photo := some (sampleDoc "photo") }

/-- An approved crew record released to clients and shortlisted by
client 5. -/
def crewVisible : Crew :=
  { id := 1, fullName := "Ada Marin", email := "ada@sea.example",
    phone := "+100200300", rank := "Chief Officer", nationality := "PT",
    currentLocation := "Lisbon", status := .approved,
    approvedForClients := true, tags := ["b", "c"],
    internalComments := some "screened", clientShortlists := [5],
    documents := fullDocs }

/-- Approved and shortlisted by client 5 but `approvedForClients = false`. -/
def crewHidden : Crew :=
  { crewVisible with
    id := 2, email := "ben@sea.example", approvedForClients := false }

/-- Approved, released, shortlisted by client 5, but no photo on file. -/
def crewNoPhoto : Crew :=
  { crewVisible with
    id := 3, email := "cy@sea.example",
    documents := { fullDocs with photo := none } }

/-- A client account. -/
def sampleClient : Client :=
  { id := 5, companyName := "Blue Shipping", email := "ops@blue.example" }

/-- A second client account, not yet shortlisted anywhere. -/
def sampleClient2 : Client :=
  { id := 7, companyName := "Red Marine", email := "hr@red.example" }

/-- A pending request by client 5 about crew 1. -/
def samplePendingRequest : ClientRequest :=
  { id := 10, client := 5, crew := 1, requestType := "Interview Request" }

/-- An already-resolved (approved, hence terminal) request. -/
def sampleApprovedRequest : ClientRequest :=
  { samplePendingRequest with id := 11, status := .approved }

/-- Submission of a new interview request for crew 1. -/
def sampleSubmitInput : SubmitInput :=
  { fieldErrors := false, crewId := 1, requestType := "Interview Request" }

/-- A registration carrying all seven required files (photo absent). -/
def fullRegisterInput : RegisterInput :=
  { fieldErrors := false, email := "new@sea.example",
    files := [("cv", sampleDoc "cv"), ("passport", sampleDoc "passport"),
              ("cdc", sampleDoc "cdc"), ("stcw", sampleDoc "stcw"),
              ("coc", sampleDoc "coc"), ("seamanBook", sampleDoc "seamanBook"),
              ("visa", sampleDoc "visa")] }

/-- A registration with a duplicate email AND a missing required CV. -/
def dupEmailMissingCvInput : RegisterInput :=
  { fieldErrors := false, email := "ada@sea.example",
    files := [("passport", sampleDoc "passport"), ("cdc", sampleDoc "cdc"),
              ("stcw", sampleDoc "stcw"), ("coc", sampleDoc "coc"),
              ("seamanBook", sampleDoc "seamanBook"),
              ("visa", sampleDoc "visa")] }

/-! ## Helper lemmas -/

/-- `find?` by key commutes with a keyed map-update whose function keeps
matching elements matching. -/
theorem find?_update {α : Type} (key : α → Nat) (g : α → α) (i : Nat)
    (hg : ∀ c, key c = i → key (g c) = i) :
    ∀ {l : List α} {x : α}, l.find? (fun c => key c == i) = some x →
      (l.map (fun c => if key c == i then g c else c)).find?
        (fun c => key c == i) = some (g x) := by
  intro l
  induction l with
  | nil => intro x h; simp at h
  | cons a t ih =>
    intro x h
    by_cases ha : key a = i
    · have hb : (key a == i) = true := by simpa using ha
      rw [List.find?_cons_of_pos (p := fun c => key c == i) _ hb] at h
      obtain rfl : a = x := by simpa using h
      simp only [List.map_cons, if_pos hb]
      exact List.find?_cons_of_pos (p := fun c => key c == i) _
        (by simpa using hg a ha)
    · have hb : (key a == i) = false := by simpa using ha
      rw [List.find?_cons_of_neg (p := fun c => key c == i) _
        (by simp [hb])] at h
      simp only [List.map_cons, hb, Bool.false_eq_true, if_false]
      rw [List.find?_cons_of_neg (p := fun c => key c == i) _
        (by simp [hb])]
      exact ih h

/-- Membership through the JS-`Set` fold. -/
theorem mem_foldl_jsSetInsert (l : List String) :
    ∀ (acc : List String) (x : String),
      x ∈ l.foldl jsSetInsert acc ↔ x ∈ acc ∨ x ∈ l := by
  induction l with
  | nil => simp
  | cons a t ih =>
    intro acc x
    rw [List.foldl_cons, ih]
    unfold jsSetInsert
    by_cases ha : a ∈ acc
    · rw [if_pos ha]
      constructor
      · rintro (hx | hx)
        · exact Or.inl hx
        · exact Or.inr (List.mem_cons_of_mem a hx)
      · rintro (hx | hx)
        · exact Or.inl hx
        · rcases List.mem_cons.mp hx with rfl | hx
          · exact Or.inl ha
          · exact Or.inr hx
    · rw [if_neg ha]
      simp only [List.mem_append, List.mem_singleton, List.mem_cons]
      tauto

/-- The JS-`Set` fold preserves distinctness. -/
theorem nodup_foldl_jsSetInsert (l : List String) :
    ∀ acc : List String, acc.Nodup → (l.foldl jsSetInsert acc).Nodup := by
  induction l with
  | nil => intro acc h; simpa using h
  | cons a t ih =>
    intro acc h
    rw [List.foldl_cons]
    apply ih
    unfold jsSetInsert
    by_cases ha : a ∈ acc
    · rwa [if_pos ha]
    · rw [if_neg ha]; simp [List.nodup_append, h, ha]

/-- Tag merge is the set union of the two tag lists. -/
theorem mem_jsSetMerge (a b : List String) (x : String) :
    x ∈ jsSetMerge a b ↔ x ∈ a ∨ x ∈ b := by
  unfold jsSetMerge
  rw [mem_foldl_jsSetInsert]
  simp

/-- Tag merge yields a duplicate-free list. -/
theorem nodup_jsSetMerge (a b : List String) : (jsSetMerge a b).Nodup :=
  nodup_foldl_jsSetInsert _ _ List.nodup_nil

/-- Adding to a shortlist that held the id at most once leaves exactly
one occurrence. -/
theorem count_shortlistAdd (l : List Nat) (c : Nat) (h : l.count c ≤ 1) :
    (shortlistAdd l c).count c = 1 := by
  unfold shortlistAdd
  by_cases hc : c ∈ l
  · rw [if_pos (by simpa using hc)]
    have h1 : 0 < l.count c := List.count_pos_iff.mpr hc
    omega
  · rw [if_neg (by simpa using hc)]
    simp [List.count_append, List.count_eq_zero.mpr hc]

/-- Shortlist insertion is idempotent. -/
theorem shortlistAdd_idem (l : List Nat) (c : Nat) :
    shortlistAdd (shortlistAdd l c) c = shortlistAdd l c := by
  by_cases hc : c ∈ l
  · simp [shortlistAdd, hc]
  · simp [shortlistAdd, hc]

/-- Removing an absent id from a shortlist is the identity. -/
theorem shortlistRemove_of_not_mem (l : List Nat) (c : Nat) (h : c ∉ l) :
    shortlistRemove l c = l := by
  unfold shortlistRemove
  apply List.filter_eq_self.mpr
  intro a ha
  have : a ≠ c := fun hac => h (hac ▸ ha)
  simpa using this

/-- The respond handler on a found request, for any notifier outcome:
the update document of src/routes/admin.js:1237-1244 applied to the
matching record. -/
theorem respondToRequest_found {requests : List ClientRequest} {i : Nat}
    {r : ClientRequest} (statusStr : String) (resp : Option String)
    (now : Nat) (notifyFails : Bool)
    (hs : statusStr ∈ respondAllowedStatuses)
    (hf : findRequest requests i = some r) :
    respondToRequest requests i statusStr resp now notifyFails =
      (RespondResult.ok
        { r with
          status := parseRespondStatus statusStr,
          adminResponse := resp, respondedAt := some now },
       requests.map (fun q => if q.id == i then
        { r with
          status := parseRespondStatus statusStr,
          adminResponse := resp, respondedAt := some now } else q)) := by
  unfold respondToRequest
  rw [if_neg (by simpa using hs)]
  rw [show findRequest requests i = some r from hf]
  by_cases hn : notifyFails
  · simp [hn]
  · simp [hn]

/-- Assigning an already-shortlisted client does not touch the state. -/
theorem assign_state_of_mem {crews : List Crew} {clients : List Client}
    {crewId clientId : Nat} {crew : Crew} {cl : Client}
    (hf : findCrew crews crewId = some crew)
    (hcl : findClient clients clientId = some cl)
    (hmem : crew.clientShortlists.contains clientId = true) :
    assignClientToCrew crews clients crewId clientId = (.ok, crews) := by
  unfold assignClientToCrew
  rw [hf]
  dsimp only
  rw [hcl]
  dsimp only
  rw [if_pos hmem]

/-- Assigning a new client appends it to the shortlist of the matching
record. -/
theorem assign_state_of_not_mem {crews : List Crew} {clients : List Client}
    {crewId clientId : Nat} {crew : Crew} {cl : Client}
    (hf : findCrew crews crewId = some crew)
    (hcl : findClient clients clientId = some cl)
    (hmem : crew.clientShortlists.contains clientId = false) :
    assignClientToCrew crews clients crewId clientId
      = (.ok, crews.map (fun c => if c.id == crewId then
          { c with
            clientShortlists := shortlistAdd c.clientShortlists clientId }
        else c)) := by
  unfold assignClientToCrew
  rw [hf]
  dsimp only
  rw [hcl]
  dsimp only
  rw [if_neg (by rw [hmem]; simp)]

/-! ## Claims -/

/-- C1 (counterexample): the shortlisted-crew read keeps `email` and
`phone` (its exclusion list does not name them), and the revision-2
request-detail read populates the crew reference with `email` and
`phone` — so a client-role read operation does return records containing
`email` and `phone`. -/
theorem C1_counterexample :
    "email" ∈ clientShortlistedFields ∧ "phone" ∈ clientShortlistedFields ∧
    "email" ∈ clientRequestDetailCrewFields ∧
    "phone" ∈ clientRequestDetailCrewFields := by
  refine ⟨?_, ?_, ?_, ?_⟩ <;> decide

/-- C1 (amended): the client crew-list read excludes email, phone,
internalComments, adminNotes, tags, priority and all documents; the
crew-detail read excludes those six fields but keeps `documents`, with
revision 1 nulling the CV slot and revision 2 keeping the CV reference
marked restricted; the request-history crew populate carries neither
email nor phone; however the shortlisted read keeps email and phone, and
the revision-2 request-detail crew populate includes email and phone. -/
theorem C1_clientReadRedaction_amended :
    (∀ f ∈ ["email", "phone", "internalComments", "adminNotes", "tags",
            "priority", "documents"], f ∉ clientCrewListFields) ∧
    (∀ f ∈ ["email", "phone", "internalComments", "adminNotes", "tags",
            "priority"], f ∉ clientCrewDetailFields) ∧
    "documents" ∈ clientCrewDetailFields ∧
    (∀ crews i c, clientCrewDetailR1 crews i = .ok c →
      c.documents.cv = none) ∧
    (∀ crews clientId i c crew,
      clientCrewDetailR2 crews clientId i = .ok c →
      findCrew crews i = some crew →
      c.documents.cv
        = crew.documents.cv.map (fun d => { d with restricted := true })) ∧
    (∀ f ∈ ["internalComments", "adminNotes", "tags", "priority",
            "documents"], f ∉ clientShortlistedFields) ∧
    ("email" ∈ clientShortlistedFields ∧
      "phone" ∈ clientShortlistedFields) ∧
    ("email" ∉ clientRequestHistoryCrewFields ∧
      "phone" ∉ clientRequestHistoryCrewFields) ∧
    ("email" ∈ clientRequestDetailCrewFields ∧
      "phone" ∈ clientRequestDetailCrewFields) := by
  refine ⟨by decide, by decide, by decide, ?_, ?_, by decide, by decide,
    by decide, by decide⟩
  · intro crews i c h
    unfold clientCrewDetailR1 at h
    cases hf : findCrew crews i <;> rw [hf] at h <;> dsimp only at h
    · exact DetailResult.noConfusion h
    · rename_i crew
      by_cases h1 : (crew.status != CrewStatus.approved
          || !crew.approvedForClients) = true
      · rw [if_pos h1] at h
        exact DetailResult.noConfusion h
      · rw [if_neg h1] at h
        rw [← DetailResult.ok.inj h]
  · intro crews clientId i c crew h hf
    unfold clientCrewDetailR2 at h
    rw [hf] at h
    dsimp only at h
    by_cases h1 : (crew.status != CrewStatus.approved
        || !crew.approvedForClients) = true
    · rw [if_pos h1] at h
      exact DetailResult.noConfusion h
    · rw [if_neg h1] at h
      by_cases h2 : (!crew.clientShortlists.contains clientId) = true
      · rw [if_pos h2] at h
        exact DetailResult.noConfusion h
      · rw [if_neg h2] at h
        rw [← DetailResult.ok.inj h]

/-- C1 (witness): concrete instances of the amended redaction facts — the
list read drops `email`, and the revision-1 detail read of the released
sample crew returns a record with a nulled CV slot. -/
theorem C1_witness :
    ("email" : String) ∉ clientCrewListFields ∧
    ({ crewVisible with
       documents := { fullDocs with cv := none } } : Crew).documents.cv
      = none := by
  have h := C1_clientReadRedaction_amended
  refine ⟨h.1 "email" (by decide), ?_⟩
  exact h.2.2.2.1 [crewVisible] 1
    { crewVisible with documents := { fullDocs with cv := none } }
    (by decide)

/-- C2 (counterexample): revision 2 of the client CV route serves the CV
file of an approved, client-released crew record with an existing file —
the outcome is a 200 inline file response, not a 403. -/
theorem C2_counterexample :
    clientCvDownloadR2 [crewVisible] 1 (fun _ => true)
        = CvResult.file "inline" crewVisible ∧
    CvResult.file "inline" crewVisible ≠ CvResult.forbidden := by
  exact ⟨rfl, by decide⟩

/-- C2 (amended): revision 1 of the client CV route always answers 403,
for every database state; revision 2 may serve the CV, but any file
response it produces uses `Content-Disposition: inline` — the CV bytes
are never returned as a downloadable attachment to a client. -/
theorem C2_clientCvDownload_amended :
    (∀ crews i, clientCvDownloadR1 crews i = CvResult.forbidden) ∧
    (∀ crews i fsExists d c,
      clientCvDownloadR2 crews i fsExists = CvResult.file d c →
      d = "inline") := by
  constructor
  · intro crews i
    rfl
  · intro crews i fs d c h
    unfold clientCvDownloadR2 at h
    cases hf : findCrew crews i <;> rw [hf] at h <;> dsimp only at h
    · exact CvResult.noConfusion h
    · rename_i crew
      by_cases h1 : (crew.status != CrewStatus.approved
          || !crew.approvedForClients) = true
      · rw [if_pos h1] at h
        exact CvResult.noConfusion h
      · rw [if_neg h1] at h
        cases hcv : crew.documents.cv <;> rw [hcv] at h <;> dsimp only at h
        · exact CvResult.noConfusion h
        · rename_i cv
          by_cases h2 : fs (stripLeadingSlash cv.url) = true
          · rw [if_pos h2] at h
            exact ((CvResult.file.inj h).1).symm
          · rw [if_neg h2] at h
            by_cases h3 : fs (altUploadPath cv.url) = true
            · rw [if_pos h3] at h
              exact ((CvResult.file.inj h).1).symm
            · rw [if_neg h3] at h
              exact CvResult.noConfusion h

/-- C2 (witness): the amended theorem at concrete inputs — an empty
database still gets 403 from revision 1, and the revision-2 file response
for the sample crew is inline. -/
theorem C2_witness :
    clientCvDownloadR1 [] 0 = CvResult.forbidden ∧
    ("inline" : String) = "inline" := by
  have h := C2_clientCvDownload_amended
  exact ⟨h.1 [] 0,
    h.2 [crewVisible] 1 (fun _ => true) "inline" crewVisible rfl⟩

/-- C3 (counterexample): a crew record that is approved but NOT released
to clients (`approvedForClients = false`) and is shortlisted by client 5
is returned by the shortlisted read — that read path checks only
`status = approved` plus membership. -/
theorem C3_counterexample :
    crewHidden.approvedForClients = false ∧
    clientShortlisted [crewHidden] 5 = [crewHidden] := by
  exact ⟨rfl, rfl⟩

/-- C3 (amended): both revisions of the crew-detail read return a record
only when `status = approved` and `approvedForClients = true` (revision 2
additionally requires shortlist membership); the shortlisted listing
instead requires only `status = approved` together with shortlist
membership, and can return records with `approvedForClients = false`. -/
theorem C3_clientRecordVisibility_amended :
    (∀ crews i c, clientCrewDetailR1 crews i = .ok c →
      c.status = .approved ∧ c.approvedForClients = true) ∧
    (∀ crews clientId i c, clientCrewDetailR2 crews clientId i = .ok c →
      c.status = .approved ∧ c.approvedForClients = true ∧
        clientId ∈ c.clientShortlists) ∧
    (∀ crews clientId c, c ∈ clientShortlisted crews clientId ↔
      c ∈ crews ∧ clientId ∈ c.clientShortlists ∧ c.status = .approved) := by
  refine ⟨?_, ?_, ?_⟩
  · intro crews i c h
    unfold clientCrewDetailR1 at h
    cases hf : findCrew crews i <;> rw [hf] at h <;> dsimp only at h
    · exact DetailResult.noConfusion h
    · rename_i crew
      by_cases h1 : (crew.status != CrewStatus.approved
          || !crew.approvedForClients) = true
      · rw [if_pos h1] at h
        exact DetailResult.noConfusion h
      · rw [if_neg h1] at h
        simp only [Bool.or_eq_true, bne_iff_ne, ne_eq, Bool.not_eq_true',
          not_or, not_not, Bool.not_eq_false] at h1
        rw [← DetailResult.ok.inj h]
        exact ⟨h1.1, h1.2⟩
  · intro crews clientId i c h
    unfold clientCrewDetailR2 at h
    cases hf : findCrew crews i <;> rw [hf] at h <;> dsimp only at h
    · exact DetailResult.noConfusion h
    · rename_i crew
      by_cases h1 : (crew.status != CrewStatus.approved
          || !crew.approvedForClients) = true
      · rw [if_pos h1] at h
        exact DetailResult.noConfusion h
      · rw [if_neg h1] at h
        by_cases h2 : (!crew.clientShortlists.contains clientId) = true
        · rw [if_pos h2] at h
          exact DetailResult.noConfusion h
        · rw [if_neg h2] at h
          simp only [Bool.or_eq_true, bne_iff_ne, ne_eq, Bool.not_eq_true',
            not_or, not_not, Bool.not_eq_false] at h1
          have hm : clientId ∈ crew.clientShortlists := by
            simp only [Bool.not_eq_true', Bool.not_eq_false] at h2
            simpa using h2
          rw [← DetailResult.ok.inj h]
          exact ⟨h1.1, h1.2, hm⟩
  · intro crews clientId c
    unfold clientShortlisted
    rw [List.mem_filter]
    constructor
    · rintro ⟨hm, hp⟩
      simp only [Bool.and_eq_true, beq_iff_eq] at hp
      exact ⟨hm, by simpa using hp.1, hp.2⟩
    · rintro ⟨hm, hs, ha⟩
      refine ⟨hm, ?_⟩
      simp [hs, ha]

/-- C3 (witness): the amended theorem at concrete inputs — the detail
read of the released sample crew satisfies both gate conditions, and the
hidden sample crew is a member of the shortlisted result set. -/
theorem C3_witness :
    (∃ c, clientCrewDetailR1 [crewVisible] 1 = .ok c ∧
      c.status = .approved ∧ c.approvedForClients = true) ∧
    crewHidden ∈ clientShortlisted [crewHidden] 5 := by
  have h := C3_clientRecordVisibility_amended
  refine ⟨⟨_, rfl, h.1 [crewVisible] 1 _ rfl⟩, ?_⟩
  exact (h.2.2 [crewHidden] 5 crewHidden).mpr
    ⟨by decide, by decide, by decide⟩

/-- C4 (counterexample): under revision 1 the slot `photo` — a member of
the claim's seven-slot allow-list — yields 403 even for a visible crew
record whose photo document is missing, where the claim predicts 404:
revision 1's allow-list omits `photo`. -/
theorem C4_counterexample :
    "photo" ∈ allowedDocsR2 ∧
    crewNoPhoto.status = CrewStatus.approved ∧
    crewNoPhoto.approvedForClients = true ∧
    crewNoPhoto.documents.get "photo" = none ∧
    clientCertificateR1 [crewNoPhoto] 3 "photo" = CertResult.forbidden := by
  exact ⟨by decide, rfl, rfl, rfl, rfl⟩

/-- C4 (amended): a slot outside the revision's allow-list yields 403 for
every database state (the slot check precedes the record lookup, so this
covers nonexistent crew ids); revision 2's allow-list is the seven-slot
set and a missing document in an allowed slot on a visible record yields
404; revision 1's allow-list omits `photo`, so `photo` yields 403 there
instead. -/
theorem C4_certificateSlotPolicy_amended :
    (∀ crews i docType fsExists, docType ∉ allowedDocsR2 →
      clientCertificateR2 crews i docType fsExists
        = CertResult.forbidden) ∧
    (∀ crews i docType, docType ∉ allowedDocsR1 →
      clientCertificateR1 crews i docType = CertResult.forbidden) ∧
    "photo" ∉ allowedDocsR1 ∧
    (∀ crews i docType fsExists crew, docType ∈ allowedDocsR2 →
      findCrew crews i = some crew → crew.status = CrewStatus.approved →
      crew.approvedForClients = true → crew.documents.get docType = none →
      clientCertificateR2 crews i docType fsExists
        = CertResult.notFound "Document not found") ∧
    (∀ crews i docType crew, docType ∈ allowedDocsR1 →
      findCrew crews i = some crew → crew.status = CrewStatus.approved →
      crew.approvedForClients = true → crew.documents.get docType = none →
      clientCertificateR1 crews i docType
        = CertResult.notFound "Document not found") := by
  refine ⟨?_, ?_, by decide, ?_, ?_⟩
  · intro crews i docType fs h
    unfold clientCertificateR2
    rw [if_pos (by simp [h])]
  · intro crews i docType h
    unfold clientCertificateR1
    rw [if_pos (by simp [h])]
  · intro crews i docType fs crew hmem hf hs ha hd
    unfold clientCertificateR2
    rw [if_neg (by simp [hmem])]
    rw [hf]
    dsimp only
    rw [if_neg (by simp [hs, ha])]
    rw [hd]
  · intro crews i docType crew hmem hf hs ha hd
    unfold clientCertificateR1
    rw [if_neg (by simp [hmem])]
    rw [hf]
    dsimp only
    rw [if_neg (by simp [hs, ha])]
    rw [hd]

/-- C4 (witness): the amended theorem at concrete inputs — the `cv` slot
is rejected with 403 even on an empty database, and the missing photo of
the sample crew yields 404 under revision 2. -/
theorem C4_witness :
    clientCertificateR2 [] 0 "cv" (fun _ => false) = CertResult.forbidden ∧
    clientCertificateR2 [crewNoPhoto] 3 "photo" (fun _ => false)
      = CertResult.notFound "Document not found" := by
  have h := C4_certificateSlotPolicy_amended
  exact ⟨h.1 [] 0 "cv" (fun _ => false) (by decide),
    h.2.2.2.1 [crewNoPhoto] 3 "photo" (fun _ => false) crewNoPhoto
      (by decide) rfl rfl rfl rfl⟩

/-- C5 (counterexample): a registration missing the required `cv` slot
whose email is already registered fails with the duplicate-email error —
not with a 400 listing the missing slots — because the duplicate check
runs before the required-documents check. -/
theorem C5_counterexample :
    dupEmailMissingCvInput.files.lookup "cv" = none ∧
    registerCrew [crewVisible] dupEmailMissingCvInput 99
      = RegisterResult.duplicateEmail := by
  exact ⟨rfl, rfl⟩

/-- C5 (amended): registration succeeds exactly when field validation
passes, the email is unregistered, and all seven required slots are
present; when validation passes and the email is fresh, a missing
required slot produces the 400 listing the missing slots; `photo` is
never required. The missing-slot listing is only reached after the
validation and duplicate-email checks. -/
theorem C5_registration_amended :
    (∀ crews input newId,
      registerCrew crews input newId = RegisterResult.created newId ↔
        input.fieldErrors = false ∧
        crews.find? (fun c => c.email == input.email) = none ∧
        ∀ d ∈ requiredDocs, (input.files.lookup d).isSome = true) ∧
    (∀ crews input newId,
      input.fieldErrors = false →
      crews.find? (fun c => c.email == input.email) = none →
      (∃ d ∈ requiredDocs, input.files.lookup d = none) →
      registerCrew crews input newId
        = RegisterResult.missingDocuments
            ((requiredDocs.filter
              (fun d => (input.files.lookup d).isNone)).map
              docDisplayName)) ∧
    "photo" ∉ requiredDocs := by
  refine ⟨?_, ?_, by decide⟩
  · intro crews input newId
    unfold registerCrew
    dsimp only
    by_cases he : input.fieldErrors = true
    · rw [if_pos he]
      simp [he]
    · rw [if_neg he]
      by_cases hdup :
          (crews.find? (fun c => c.email == input.email)).isSome = true
      · rw [if_pos hdup]
        obtain ⟨v, hv⟩ := Option.isSome_iff_exists.mp hdup
        simp [hv]
      · rw [if_neg hdup]
        have hnone := Option.not_isSome_iff_eq_none.mp hdup
        by_cases hm : 0 < (requiredDocs.filter
            (fun d => (input.files.lookup d).isNone)).length
        · rw [if_pos hm]
          constructor
          · intro habs
            exact absurd habs (by simp)
          · rintro ⟨-, -, hall⟩
            obtain ⟨d, hdm⟩ := List.exists_mem_of_length_pos hm
            obtain ⟨hdr, hdn⟩ := List.mem_filter.mp hdm
            have h2 := hall d hdr
            cases hx : input.files.lookup d with
            | none => rw [hx] at h2; exact absurd h2 (by simp)
            | some v => rw [hx] at hdn; exact absurd hdn (by simp)
        · rw [if_neg hm]
          have hfil : requiredDocs.filter
              (fun d => (input.files.lookup d).isNone) = [] :=
            List.length_eq_zero.mp (Nat.eq_zero_of_not_pos hm)
          constructor
          · intro _
            refine ⟨by simpa using he, hnone, ?_⟩
            intro d hd
            have hx := List.filter_eq_nil_iff.mp hfil d hd
            cases hy : input.files.lookup d with
            | none => rw [hy] at hx; simp at hx
            | some v => simp [hy]
          · intro _
            rfl
  · intro crews input newId he hn hex
    unfold registerCrew
    dsimp only
    rw [if_neg (by simp [he]), if_neg (by simp [hn])]
    rw [if_pos ?side]
    case side =>
      obtain ⟨d, hdm, hdn⟩ := hex
      have hmem : d ∈ requiredDocs.filter
          (fun d => (input.files.lookup d).isNone) :=
        List.mem_filter.mpr ⟨hdm, by simp [hdn]⟩
      exact List.length_pos.mpr (List.ne_nil_of_mem hmem)

/-- C5 (witness): the amended theorem at concrete inputs — the full
seven-document registration is created, and the same input with the CV
filtered out gets the 400 listing exactly the missing CV. -/
theorem C5_witness :
    registerCrew [] fullRegisterInput 42 = RegisterResult.created 42 ∧
    registerCrew []
        { fullRegisterInput with
          files := fullRegisterInput.files.filter (fun f => f.1 != "cv") }
        42
      = RegisterResult.missingDocuments ["CV"] := by
  have h := C5_registration_amended
  constructor
  · exact (h.1 [] fullRegisterInput 42).mpr ⟨rfl, rfl, by decide⟩
  · have h2 := h.2.1 []
      { fullRegisterInput with
        files := fullRegisterInput.files.filter (fun f => f.1 != "cv") }
      42 rfl rfl ⟨"cv", by decide, by decide⟩
    rw [h2]
    rfl

/-- C6 (counterexample): with a pending request by client 5 for crew 1
already stored, client 5's new submission for crew 1 is created (201) and
appended — no duplicate-pending rejection occurs in the code. -/
theorem C6_counterexample :
    samplePendingRequest.client = 5 ∧ samplePendingRequest.crew = 1 ∧
    samplePendingRequest.status = RequestStatus.pending ∧
    sampleSubmitInput.crewId = 1 ∧
    (submitRequestR2 [crewVisible] [samplePendingRequest] 5
        sampleSubmitInput 12 7).1 = SubmitResult.created 12 ∧
    (submitRequestR2 [crewVisible] [samplePendingRequest] 5
        sampleSubmitInput 12 7).2.length = 2 := by
  exact ⟨rfl, rfl, rfl, rfl, rfl, rfl⟩

/-- C6 (amended): neither revision of the submit-request handler consults
the existing request collection — the response is identical for every
prior request state, so a pending duplicate is never rejected; whenever
the crew-side checks pass, a new pending request is saved. -/
theorem C6_noDuplicatePendingGuard_amended :
    (∀ crews requests requests' clientId input newId now,
      (submitRequestR1 crews requests clientId input newId now).1
        = (submitRequestR1 crews requests' clientId input newId now).1) ∧
    (∀ crews requests requests' clientId input newId now,
      (submitRequestR2 crews requests clientId input newId now).1
        = (submitRequestR2 crews requests' clientId input newId now).1) ∧
    (∀ crews requests clientId input newId now crew,
      input.fieldErrors = false →
      findCrew crews input.crewId = some crew →
      crew.status = CrewStatus.approved →
      crew.approvedForClients = true →
      clientId ∈ crew.clientShortlists →
      submitRequestR2 crews requests clientId input newId now
        = (SubmitResult.created newId, requests ++
            [{ id := newId, client := clientId, crew := input.crewId,
               requestType := input.requestType, message := input.message,
               urgency := input.urgency, status := RequestStatus.pending,
               requestedAt := now }])) := by
  refine ⟨?_, ?_, ?_⟩
  · intro crews requests requests' clientId input newId now
    unfold submitRequestR1
    by_cases he : input.fieldErrors = true
    · rw [if_pos he, if_pos he]
    · rw [if_neg he, if_neg he]
      cases findCrew crews input.crewId
      · rfl
      · rename_i crew
        dsimp only
        by_cases hs : (crew.status != CrewStatus.approved) = true
        · rw [if_pos hs, if_pos hs]
        · rw [if_neg hs, if_neg hs]
  · intro crews requests requests' clientId input newId now
    unfold submitRequestR2
    by_cases he : input.fieldErrors = true
    · rw [if_pos he, if_pos he]
    · rw [if_neg he, if_neg he]
      cases findCrew crews input.crewId
      · rfl
      · rename_i crew
        dsimp only
        by_cases hs : (crew.status != CrewStatus.approved
            || !crew.approvedForClients) = true
        · rw [if_pos hs, if_pos hs]
        · rw [if_neg hs, if_neg hs]
          by_cases hm : (!crew.clientShortlists.contains clientId) = true
          · rw [if_pos hm, if_pos hm]
          · rw [if_neg hm, if_neg hm]
  · intro crews requests clientId input newId now crew he hf hs ha hm
    unfold submitRequestR2
    rw [if_neg (by simp [he])]
    rw [hf]
    dsimp only
    rw [if_neg (by simp [hs, ha])]
    rw [if_neg (by simp [hm])]

/-- C6 (witness): the amended theorem at concrete inputs — the submission
outcome with a pending duplicate on file equals the outcome with no prior
requests, and the concrete submission is created and appended. -/
theorem C6_witness :
    (submitRequestR2 [crewVisible] [samplePendingRequest] 5
        sampleSubmitInput 12 7).1
      = (submitRequestR2 [crewVisible] [] 5 sampleSubmitInput 12 7).1 ∧
    submitRequestR2 [crewVisible] [samplePendingRequest] 5
        sampleSubmitInput 12 7
      = (SubmitResult.created 12, [samplePendingRequest,
          { id := 12, client := 5, crew := 1,
            requestType := "Interview Request", message := none,
            urgency := "normal", status := RequestStatus.pending,
            requestedAt := 7 }]) := by
  have h := C6_noDuplicatePendingGuard_amended
  constructor
  · exact h.2.1 [crewVisible] [samplePendingRequest] [] 5
      sampleSubmitInput 12 7
  · exact h.2.2 [crewVisible] [samplePendingRequest] 5 sampleSubmitInput
      12 7 crewVisible rfl rfl rfl rfl (by decide)

/-- C7 (counterexample): a request already in the terminal state
`approved` has its status changed again to `rejected` by a later respond
operation — the code never checks the current status. -/
theorem C7_counterexample :
    sampleApprovedRequest.status = RequestStatus.approved ∧
    (respondToRequest [sampleApprovedRequest] 11 "rejected" (some "no") 9
        false).1
      = RespondResult.ok
          { sampleApprovedRequest with
            status := RequestStatus.rejected,
            adminResponse := some "no", respondedAt := some 9 } := by
  exact ⟨rfl, rfl⟩

/-- C7 (amended): the respond operation sets the supplied status
(approved, rejected or completed) on the matched request regardless of
its current status — `pending → terminal` transitions occur, but a
request in a terminal state can also be re-resolved to any other terminal
status by a later respond call; nothing protects terminal states. -/
theorem C7_requestStatusNotTerminal_amended :
    ∀ requests i statusStr resp now notifyFails r,
      statusStr ∈ respondAllowedStatuses →
      findRequest requests i = some r →
      (respondToRequest requests i statusStr resp now notifyFails).1
        = RespondResult.ok
            { r with
              status := parseRespondStatus statusStr,
              adminResponse := resp, respondedAt := some now } ∧
      findRequest
          (respondToRequest requests i statusStr resp now notifyFails).2 i
        = some
            { r with
              status := parseRespondStatus statusStr,
              adminResponse := resp, respondedAt := some now } := by
  intro requests i statusStr resp now notifyFails r hs hf
  rw [respondToRequest_found statusStr resp now notifyFails hs hf]
  refine ⟨rfl, ?_⟩
  have hr : r.id = i := by simpa using List.find?_some hf
  have hf' : requests.find? (fun q => q.id == i) = some r := hf
  show (requests.map (fun q =>
      if q.id == i then
        { r with
          status := parseRespondStatus statusStr,
          adminResponse := resp, respondedAt := some now }
      else q)).find? (fun q => q.id == i)
    = some
        { r with
          status := parseRespondStatus statusStr,
          adminResponse := resp, respondedAt := some now }
  exact find?_update (fun q => q.id)
    (fun _ =>
      { r with
        status := parseRespondStatus statusStr,
        adminResponse := resp, respondedAt := some now }) i
    (fun c _ => hr) hf'

/-- C7 (witness): the amended theorem at a concrete input — responding
`approved` to the pending sample request produces the approved record. -/
theorem C7_witness :
    (respondToRequest [samplePendingRequest] 10 "approved" none 3
        false).1
      = RespondResult.ok
          { samplePendingRequest with
            status := RequestStatus.approved,
            adminResponse := none, respondedAt := some 3 } := by
  have h := C7_requestStatusNotTerminal_amended [samplePendingRequest] 10
    "approved" none 3 false samplePendingRequest (by decide) rfl
  exact h.1

/-- C8 (confirmed): the bulk tag assignment merges — membership in the
result is membership in the old or the new tags, the result is
duplicate-free, and the concrete merge of new `{a,b}` into stored `{b,c}`
gives exactly `{b,c,a}`; the set-status update path with a supplied tags
list instead replaces the stored tags with that list. -/
theorem C8_tagMergeVsReplace :
    (∀ crew tags x, x ∈ (bulkTagsUpdateCrew crew tags).tags ↔
      x ∈ crew.tags ∨ x ∈ tags) ∧
    (∀ crew tags, (bulkTagsUpdateCrew crew tags).tags.Nodup) ∧
    (bulkTagsUpdateCrew { crewVisible with tags := ["b", "c"] }
        ["a", "b"]).tags = ["b", "c", "a"] ∧
    (∀ crew (u : StatusUpdateInput) l,
      (applyStatusUpdate crew { u with tags := some l }).tags = l) := by
  refine ⟨?_, ?_, rfl, ?_⟩
  · intro crew tags x
    exact mem_jsSetMerge crew.tags tags x
  · intro crew tags
    exact nodup_jsSetMerge crew.tags tags
  · intro crew u l
    rfl

/-- C9 (confirmed): shortlist assignment and unassignment behave as set
operations — double assignment equals single assignment and leaves
exactly one occurrence of the client id (when the stored list held it at
most once), unassignment of an unknown crew is the only failure, and
removing a non-member id is a no-op returning success. -/
theorem C9_shortlistSetSemantics :
    (∀ crews clients crewId clientId crew,
      findCrew crews crewId = some crew →
      findClient clients clientId ≠ none →
      crew.clientShortlists.count clientId ≤ 1 →
      (assignClientToCrew
          (assignClientToCrew crews clients crewId clientId).2
          clients crewId clientId).2
        = (assignClientToCrew crews clients crewId clientId).2 ∧
      ∃ crew',
        findCrew (assignClientToCrew crews clients crewId clientId).2
            crewId = some crew' ∧
        crew'.clientShortlists.count clientId = 1) ∧
    (∀ crews crewId clientId crew, findCrew crews crewId = some crew →
      (removeClientFromCrew crews crewId clientId).1 = RemoveResult.ok) ∧
    (∀ l c, c ∉ l → shortlistRemove l c = l) ∧
    (∀ l c, shortlistAdd (shortlistAdd l c) c = shortlistAdd l c) := by
  refine ⟨?_, ?_, shortlistRemove_of_not_mem, shortlistAdd_idem⟩
  · intro crews clients crewId clientId crew hf hcl0 hcount
    obtain ⟨cl, hcl⟩ : ∃ cl, findClient clients clientId = some cl := by
      cases hx : findClient clients clientId
      · exact absurd hx hcl0
      · exact ⟨_, rfl⟩
    by_cases hmem : crew.clientShortlists.contains clientId = true
    · have hstate := assign_state_of_mem hf hcl hmem
      refine ⟨?_, crew, ?_, ?_⟩
      · rw [hstate]
        show (assignClientToCrew crews clients crewId clientId).2 = crews
        rw [hstate]
      · rw [hstate]
        exact hf
      · have h1 : 0 < crew.clientShortlists.count clientId :=
          List.count_pos_iff.mpr (by simpa using hmem)
        omega
    · have hmem' : crew.clientShortlists.contains clientId = false := by
        simpa using hmem
      have hstate := assign_state_of_not_mem hf hcl hmem'
      have hf' : crews.find? (fun c => c.id == crewId) = some crew := hf
      have hfind2 : findCrew
          (assignClientToCrew crews clients crewId clientId).2 crewId
          = some { crew with
                   clientShortlists :=
                     shortlistAdd crew.clientShortlists clientId } := by
        rw [hstate]
        exact find?_update (fun c : Crew => c.id)
          (fun c : Crew =>
            { c with
              clientShortlists := shortlistAdd c.clientShortlists clientId })
          crewId (fun c hc => hc) hf'
      constructor
      · have hmem2 : ({ crew with
            clientShortlists :=
              shortlistAdd crew.clientShortlists clientId } :
              Crew).clientShortlists.contains clientId = true := by
          show (shortlistAdd crew.clientShortlists clientId).contains
            clientId = true
          unfold shortlistAdd
          rw [if_neg (by rw [hmem']; simp)]
          simp
        have hstep := assign_state_of_mem hfind2 hcl hmem2
        rw [hstep]
      · refine ⟨_, hfind2, ?_⟩
        show (shortlistAdd crew.clientShortlists clientId).count
          clientId = 1
        exact count_shortlistAdd _ _ hcount
  · intro crews crewId clientId crew hf
    unfold removeClientFromCrew
    rw [hf]

/-- C9 (witness): the amended facts at concrete inputs — assigning client
7 to the sample crew twice equals assigning once, and removing a
non-member client reports success. -/
theorem C9_witness :
    (assignClientToCrew
        (assignClientToCrew [crewVisible] [sampleClient2] 1 7).2
        [sampleClient2] 1 7).2
      = (assignClientToCrew [crewVisible] [sampleClient2] 1 7).2 ∧
    (removeClientFromCrew [crewVisible] 1 9).1 = RemoveResult.ok := by
  have h := C9_shortlistSetSemantics
  exact ⟨(h.1 [crewVisible] [sampleClient2] 1 7 crewVisible rfl
      (by decide) (by decide)).1,
    h.2.1 [crewVisible] 1 9 crewVisible rfl⟩

/-- C10 (confirmed): the respond operation's outcome is identical whether
or not the outbound client notification fails — the failure is caught —
and on a found request it reports the updated record (status set,
adminResponse stored, respondedAt stamped) as success. -/
theorem C10_respondNotificationBestEffort :
    (∀ requests i statusStr resp now notifyFails,
      respondToRequest requests i statusStr resp now notifyFails
        = respondToRequest requests i statusStr resp now false) ∧
    (∀ requests i statusStr resp now notifyFails r,
      statusStr ∈ respondAllowedStatuses →
      findRequest requests i = some r →
      (respondToRequest requests i statusStr resp now notifyFails).1
        = RespondResult.ok
            { r with
              status := parseRespondStatus statusStr,
              adminResponse := resp, respondedAt := some now }) := by
  constructor
  · intro requests i statusStr resp now notifyFails
    unfold respondToRequest
    by_cases hs : (!respondAllowedStatuses.contains statusStr) = true
    · rw [if_pos hs, if_pos hs]
    · rw [if_neg hs, if_neg hs]
      cases findRequest requests i
      · rfl
      · dsimp only
        by_cases hn : notifyFails = true
        · rw [if_pos hn, if_neg (by simp)]
        · rw [if_neg hn, if_neg (by simp)]
  · intro requests i statusStr resp now notifyFails r hs hf
    rw [respondToRequest_found statusStr resp now notifyFails hs hf]

/-- C10 (witness): the theorem at a concrete input with a failing
notifier — the respond operation still reports the updated request. -/
theorem C10_witness :
    (respondToRequest [samplePendingRequest] 10 "completed" (some "done")
        4 true).1
      = RespondResult.ok
          { samplePendingRequest with
            status := RequestStatus.completed,
            adminResponse := some "done", respondedAt := some 4 } := by
  have h := C10_respondNotificationBestEffort
  exact h.2 [samplePendingRequest] 10 "completed" (some "done") 4 true
    samplePendingRequest (by decide) rfl

end CaptainCary
